import Mathlib

/-!
# Verification of the NodeBB search orchestration module (src/search.ts)

Shallow embedding of the search pipeline: domain dispatch, the
`in:topic-<id>` scoping token, candidate merging, the bookmarks scan
filter, the conditional filter/sort engine (fast path, hydration,
reply-count / time-range / tag filters, attribute-path sorting) and
pagination.  JavaScript strings are Lean `String`s, JS numbers are `Int`,
JS `undefined`/absent optional fields are `Option`/`""`/`0` as noted at
each field, and the external stores (posts, topics, users, categories,
plugin hooks) are oracle functions bundled in a `World`.
-/

namespace NodeBB

/-- A JS dynamic value, as needed for two-level attribute-path sorting
(`post[f0][f1]` in `sortPosts`).  `undefined` stands for JS `undefined`. -/
inductive JVal where
  | num (n : Int)
  | str (s : String)
  | undefined
deriving DecidableEq

/-- JS truthiness of a `JVal` (`0`, `""` and `undefined` are falsy). -/
def JVal.truthy : JVal → Bool
  | .num n => !(n == 0)
  | .str s => !(s == "")
  | .undefined => false

/-- `utils.isNumber` restricted to our value universe: numbers are numeric.
(The JS helper also accepts numeric strings; no code path in the claims
produces a numeric string in a sort field, so that corner is not modelled.) -/
def JVal.isNumber : JVal → Bool
  | .num _ => true
  | _ => false

/-- Numeric coercion used by the numeric sort comparator.  Only applied on
the branch guarded by `isNumber` on the first element. -/
def JVal.toNum : JVal → Int
  | .num n => n
  | _ => 0

/-- JS `>` for the string three-way comparator branch of `sortPosts`
(that branch is taken only when the values are non-numeric strings;
comparisons against `undefined` are false in JS, hence `false` here). -/
def JVal.gt : JVal → JVal → Bool
  | .str a, .str b => decide (b < a)
  | _, _ => false

/-- JS `<` for the string three-way comparator branch of `sortPosts`. -/
def JVal.lt : JVal → JVal → Bool
  | .str a, .str b => decide (a < b)
  | _, _ => false

/-- The post fields fetched by `getMatchedPosts`
(`['pid', 'uid', 'tid', 'timestamp', 'deleted', 'upvotes', 'downvotes']`). -/
structure Post where
  pid : Int
  uid : Int
  tid : Int
  timestamp : Int
  deleted : Bool
  upvotes : Int
  downvotes : Int
deriving DecidableEq

/-- The topic fields the pipeline reads (`getTopicsData` result after
`getTopics` maps each tag record to its `value` string). -/
structure Topic where
  tid : Int
  cid : Int
  deleted : Bool
  postcount : Int
  tags : List String
deriving DecidableEq

/-- A hydrated post as produced by `getMatchedPosts`: the raw post plus the
optional enrichments `post.topic`, `post.user` (username only, fetched only
for `user*` sorts) and the single category field fetched for `category.*`
sorts (`getCategories` fetches exactly the field named by the sort path). -/
structure HPost where
  post : Post
  topic : Option Topic
  username : Option String
  categoryField : Option JVal
deriving DecidableEq

/-- The query object `ISearchData`, restricted to the fields this module
reads.  JS absent/`undefined` is encoded per field: `query`, `searchIn`,
`matchWords`, `sortDirection`, `repliesFilter`, `timeFilter` as `""`;
`replies` and `timeRange` as `none` (the code receives them as strings and
`parseInt`s them; we model the parsed number); `hasTags` as `none`
(note a *present but empty* array is truthy in JS and defeats the fast
path, so `some []` and `none` differ); `page` and `itemsPerPage` as `0`
(JS number `0` is falsy exactly like `undefined` in the checks used). -/
structure SearchData where
  query : String
  searchIn : String
  matchWords : String
  sortBy : String
  sortDirection : String
  replies : Option Int
  repliesFilter : String
  timeRange : Option Int
  timeFilter : String
  hasTags : Option (List String)
  page : Int
  itemsPerPage : Int
  uid : Int
deriving DecidableEq

/-- The external collaborators: keyed stores (`none` = missing record),
the clock, and the `filter:search.filterAndSort` plugin hook
(`hasFilterSortListeners` is `plugins.hooks.hasListeners(...)`;
`filterSortHook` is the listener chain, relevant only when that is true —
with no listeners `plugins.hooks.fire` returns its payload unchanged). -/
structure World where
  posts : Int → Option Post
  topics : Int → Option Topic
  username : Int → String
  categoryField : Int → JVal
  now : Int
  hasFilterSortListeners : Bool
  filterSortHook : List Int → List HPost → SearchData → List HPost

/-- JS `s.startsWith(pre)` (used as `data.sortBy.startsWith('user')` etc.). -/
def jsStartsWith (s pre : String) : Bool := pre.data.isPrefixOf s.data

/-- JS `String.prototype.split` with a single-character separator, on the
character list: splits at every occurrence, keeping empty pieces
(`"a..b".split('.') = ["a","","b"]`, `"".split('.') = [""]`). -/
def jsSplitChar (sep : Char) : List Char → List (List Char)
  | [] => [[]]
  | c :: cs =>
    match jsSplitChar sep cs with
    | [] => [[]]
    | h :: t => if c == sep then [] :: h :: t else (c :: h) :: t

/-- JS `s.split(sep)` for a one-character separator. -/
def jsSplit (s : String) (sep : Char) : List String :=
  (jsSplitChar sep s.data).map String.mk

/-- JS `haystack.includes(needle)` on character lists: contiguous substring
test (the empty needle is found in everything, as in JS). -/
def hasSub (needle : List Char) : List Char → Bool
  | [] => needle.isEmpty
  | c :: rest => needle.isPrefixOf (c :: rest) || hasSub needle rest

/-- JS `s.includes(sub)`. -/
def jsIncludes (s sub : String) : Bool := hasSub sub.data s.data

/-! ## Top-level domain dispatch (`search.search`, lines 20–34) -/

/-- Which branch of `search.search` handles a query. -/
inductive SearchOutcome where
  | content
  | users
  | categories
  | tags
  | extensionHook
  | unknownError
deriving DecidableEq

/-- The content domains routed to `searchInContent`. -/
def builtinContentDomains : List String := ["posts", "titles", "titlesposts", "bookmarks"]

/-- The `if`/`else if` chain of `search.search` on `data.searchIn`:
content domains, then `users` / `categories` / `tags`, then — for any other
*truthy* domain — the `filter:search.searchIn` plugin hook (which, with no
listeners, returns its payload unchanged, so the call still succeeds), and
only for a falsy domain the `[[error:unknown-search-filter]]` throw. -/
def searchDispatch (searchIn : String) : SearchOutcome :=
  if builtinContentDomains.contains searchIn then .content
  else if searchIn == "users" then .users
  else if searchIn == "categories" then .categories
  else if searchIn == "tags" then .tags
  else if !(searchIn == "") then .extensionHook
  else .unknownError

/-! ## `in:topic-<id>` scoping and backend dispatch (lines 65–81) -/

/-- Greedily take the leading decimal digits of a character list
(the `([\d]+)` capture group). -/
def takeDigits : List Char → List Char × List Char
  | [] => ([], [])
  | c :: cs =>
    if c.isDigit then
      let r := takeDigits cs
      (c :: r.1, r.2)
    else ([], c :: cs)

/-- `query.match(/^in:topic-([\d]+) /)` followed by
`query.replace(inTopic[0], '')`: on success returns the captured digit
string and the query with the whole matched token (including the trailing
space) removed.  The match is anchored, so the removed first occurrence is
exactly the leading token. -/
def inTopicMatch (cs : List Char) : Option (List Char × List Char) :=
  if ("in:topic-".data).isPrefixOf cs then
    match takeDigits (cs.drop ("in:topic-".data).length) with
    | ([], _) => none
    | (ds, r) =>
      match r with
      | ' ' :: tail => some (ds, tail)
      | _ => none
  else none

/-- Which candidate-producing path `searchInContent` takes (lines 68–81):
the per-topic search (`topics.search(tid, cleanedTerm)`), the bookmarks
scan, or general dispatch — where `doSearch` hits the post index iff
`searchIn ∈ {posts, titlesposts}` and the topic index iff
`searchIn ∈ {titles, titlesposts}`. -/
inductive ContentDispatch where
  | perContainer (tid : String) (term : String)
  | bookmarks
  | general (postIndex : Bool) (topicIndex : Bool)
deriving DecidableEq

/-- The branch selection of lines 68–81. -/
def contentDispatch (data : SearchData) : ContentDispatch :=
  match inTopicMatch data.query.data with
  | some (ds, tail) => .perContainer (String.mk ds) (String.mk tail)
  | none =>
    if data.searchIn == "bookmarks" then .bookmarks
    else .general (["posts", "titlesposts"].contains data.searchIn)
                  (["titles", "titlesposts"].contains data.searchIn)

/-- Line 85: `mainPids.concat(pids).filter(Boolean)` — main-item ids first,
then direct post ids, falsy (`0`) entries dropped. -/
def mergeCandidates (mainPids pids : List Int) : List Int :=
  (mainPids ++ pids).filter (fun pid => !(pid == 0))

/-! ## Bookmarks scan (`searchInBookmarks`, lines 124–157) -/

/-- The per-id keep predicate of the bookmarks text filter (lines 142–149):
split the query on single spaces, then under `matchWords === 'any'` use
`some`, otherwise (the `'all'` default) `every`, of: token is a substring
of the post content or of the parent topic title. -/
def bookmarkKeep (matchWords query content title : String) : Bool :=
  let tokens := jsSplit query ' '
  if matchWords == "any" then
    tokens.any (fun token => jsIncludes content token || jsIncludes title token)
  else
    tokens.all (fun token => jsIncludes content token || jsIncludes title token)

/-- The text-filter step of one bookmarks batch (lines 136–150): a no-op
when no query text is given, otherwise an order-preserving filter by
`bookmarkKeep`.  `content pid` is the stored post content and `title pid`
the post's parent topic title (the aligned `postData` / `tidToTopic`
lookups of the source; the store returns a record for every id). -/
def bookmarkFilterBatch (content title : Int → String)
    (pids : List Int) (query matchWords : String) : List Int :=
  if query == "" then pids
  else pids.filter (fun pid => bookmarkKeep matchWords query (content pid) (title pid))

/-! ## Filter & sort engine (`filterAndSort` and helpers, lines 159–325) -/

/-- The topic attached to a hydrated post.  At every use site
(`filterByPostcount`, `filterByTags`) the pipeline has already dropped
posts without a live topic, so the default is never read. -/
def topicOf (hp : HPost) : Topic :=
  hp.topic.getD { tid := 0, cid := 0, deleted := false, postcount := 0, tags := [] }

/-- The enrichment step of `getMatchedPosts` (lines 200–211): attach
`post.topic` when the batched topic lookup has it, the username only for
`user*` sorts (`getUsers`, lines 216–221), and — via `getTopics` /
`getCategories` (lines 223–252) — the one category field named by a
`category.*` sort path. -/
def enrichPost (w : World) (sortBy : String) (p : Post) : HPost :=
  { post := p
    topic := w.topics p.tid
    username := if jsStartsWith sortBy "user" then some (w.username p.uid) else none
    categoryField :=
      match w.topics p.tid with
      | some t => if jsStartsWith sortBy "category." then some (w.categoryField t.cid) else none
      | none => none }

/-- Line 213: `post && post.topic && !post.topic.deleted`. -/
def topicAlive (hp : HPost) : Bool :=
  match hp.topic with
  | some t => !t.deleted
  | none => false

/-- `getMatchedPosts` (lines 184–214): fetch the posts (missing ids yield
no record), drop soft-deleted posts, enrich, and drop posts whose topic is
missing or soft-deleted. -/
def getMatchedPosts (w : World) (pids : List Int) (sortBy : String) : List HPost :=
  let postsData := (pids.filterMap w.posts).filter (fun p => !p.deleted)
  (postsData.map (enrichPost w sortBy)).filter topicAlive

/-- `filterByPostcount` (lines 254–264): no-op without a replies criterion;
`atleast` keeps `postcount ≥ n`, anything else (the `atmost` default)
keeps `postcount ≤ n`. -/
def filterByPostcount (posts : List HPost) (postCount : Option Int) (repliesFilter : String) :
    List HPost :=
  match postCount with
  | none => posts
  | some n =>
    if repliesFilter == "atleast" then posts.filter (fun hp => n ≤ (topicOf hp).postcount)
    else posts.filter (fun hp => (topicOf hp).postcount ≤ n)

/-- `filterByTimerange` (lines 266–277): cutoff `now − timeRange·1000`;
`newer` keeps `timestamp ≥ cutoff`, anything else keeps
`timestamp ≤ cutoff`. -/
def filterByTimerange (posts : List HPost) (timeRange : Option Int) (timeFilter : String)
    (now : Int) : List HPost :=
  match timeRange with
  | none => posts
  | some tr =>
    let time := now - tr * 1000
    if timeFilter == "newer" then posts.filter (fun hp => time ≤ hp.post.timestamp)
    else posts.filter (fun hp => hp.post.timestamp ≤ time)

/-- `filterByTags` (lines 279–290): with a non-empty requested tag list,
keep a post iff its topic has a non-empty tag list containing every
requested tag. -/
def filterByTags (posts : List HPost) (hasTags : Option (List String)) : List HPost :=
  match hasTags with
  | none => posts
  | some tags =>
    if tags.isEmpty then posts
    else posts.filter (fun hp =>
      !(topicOf hp).tags.isEmpty && tags.all (fun tag => (topicOf hp).tags.contains tag))

/-- Depth-1 sort field access `post[fields[0]]` for the numeric fields a
fetched post carries.  (A depth-1 sort on a missing field compares JS
`undefined`s — flagged in the module as an unguarded gap — and is outside
the verified claims; such a name reads as `0` here.) -/
def postNumField (hp : HPost) (f : String) : Int :=
  if f == "pid" then hp.post.pid
  else if f == "uid" then hp.post.uid
  else if f == "tid" then hp.post.tid
  else if f == "timestamp" then hp.post.timestamp
  else if f == "upvotes" then hp.post.upvotes
  else if f == "downvotes" then hp.post.downvotes
  else 0

/-- Depth-2 sort field access `post[fields[0]][fields[1]]` over the
enriched sub-records: `topic` (numeric fields), `user.username`, and the
single fetched category field. -/
def subFieldVal (hp : HPost) (f0 f1 : String) : JVal :=
  if f0 == "topic" then
    match hp.topic with
    | none => .undefined
    | some t =>
      if f1 == "tid" then .num t.tid
      else if f1 == "cid" then .num t.cid
      else if f1 == "postcount" then .num t.postcount
      else .undefined
  else if f0 == "user" then
    match hp.username with
    | some u => if f1 == "username" then .str u else .undefined
    | none => .undefined
  else if f0 == "category" then (hp.categoryField.getD .undefined)
  else .undefined

/-- Lines 297–298: `data.sortDirection = data.sortDirection || 'desc'`
followed by `direction = sortDirection === 'desc' ? 1 : -1`. -/
def directionOf (data : SearchData) : Int :=
  if (if data.sortDirection == "" then "desc" else data.sortDirection) == "desc" then 1 else -1

/-- `sortPosts` (lines 292–325): skip for an empty list or relevance sort;
split the sort path on `'.'`.  A one-field path sorts by numeric
subtraction; a two-field path first checks the guard
`firstPost?.[f0]?.[f1]` is truthy (else leaves the list as-is), then sorts
numerically or by three-way string comparison; any other path depth fails
the source's `length === 1` / `length === 2` checks and leaves the list
as-is.  JS `Array.prototype.sort` is modelled by the stable
`List.mergeSort` with `le a b := comparator(a, b) ≤ 0`. -/
def sortPosts (posts : List HPost) (data : SearchData) : List HPost :=
  if posts.isEmpty || data.sortBy == "relevance" then posts
  else
    match jsSplit data.sortBy '.', posts with
    | [f], _ =>
      posts.mergeSort (fun p1 p2 =>
        decide (directionOf data * (postNumField p2 f - postNumField p1 f) ≤ 0))
    | [f0, f1], firstPost :: _ =>
      if !(subFieldVal firstPost f0 f1).truthy then posts
      else if (subFieldVal firstPost f0 f1).isNumber then
        posts.mergeSort (fun p1 p2 =>
          decide (directionOf data * ((subFieldVal p2 f0 f1).toNum - (subFieldVal p1 f0 f1).toNum) ≤ 0))
      else
        posts.mergeSort (fun p1 p2 =>
          decide ((if (subFieldVal p1 f0 f1).gt (subFieldVal p2 f0 f1) then directionOf data
                   else if (subFieldVal p1 f0 f1).lt (subFieldVal p2 f0 f1) then -(directionOf data)
                   else 0) ≤ 0))
    | _, _ => posts

/-- The fast-path guard of `filterAndSort` (lines 160–165).  Note JS
truthiness: `hasTags` must be absent (`none`) — a present empty array is
truthy and defeats the guard. -/
def fastPath (w : World) (data : SearchData) : Bool :=
  data.sortBy == "relevance" &&
  data.replies.isNone &&
  data.timeRange.isNone &&
  data.hasTags.isNone &&
  !(data.searchIn == "bookmarks") &&
  !w.hasFilterSortListeners

/-- `filterAndSort` (lines 159–182), paired with the number of external
hydration fetches it performs (post fetch + topic fetch, plus the
conditional user and category fetches; `0` on the fast path).  When the
hydrated list comes back empty the original id list is returned unchanged
(line 169–171).  The closing `filter:search.filterAndSort` hook is the
listener chain when one is registered, else the identity. -/
def filterAndSort (w : World) (pids : List Int) (data : SearchData) : List Int × Nat :=
  if fastPath w data then (pids, 0)
  else
    let postsData := getMatchedPosts w pids data.sortBy
    let hydrations := 2 + (if jsStartsWith data.sortBy "user" then 1 else 0) +
      (if jsStartsWith data.sortBy "category." then 1 else 0)
    if postsData.isEmpty then (pids, hydrations)
    else
      let p1 := filterByPostcount postsData data.replies data.repliesFilter
      let p2 := filterByTimerange p1 data.timeRange data.timeFilter w.now
      let p3 := filterByTags p2 data.hasTags
      let sorted := sortPosts p3 data
      let hooked := if w.hasFilterSortListeners then w.filterSortHook pids sorted data else sorted
      (hooked.map (fun hp => hp.post.pid), hydrations)

/-! ## Pagination (`searchInContent`, lines 104–115) -/

/-- JS `Array.prototype.slice(s, e)`: negative indices count from the end,
then both are clamped to `[0, length]`. -/
def jsSlice (l : List Int) (s e : Int) : List Int :=
  let len : Int := l.length
  let k := (if s < 0 then max (len + s) 0 else min s len).toNat
  let f := (if e < 0 then max (len + e) 0 else min e len).toNat
  (l.take f).drop k

/-- Line 104: `Math.min(data.itemsPerPage || 10, 100)`. -/
def effectiveItemsPerPage (requested : Int) : Int :=
  min (if requested == 0 then 10 else requested) 100

/-- The paged response skeleton of lines 104–115. -/
structure PagedResult where
  matchCount : Nat
  pageCount : Int
  pagedPids : List Int
deriving DecidableEq

/-- Lines 104–115 applied to the final id list `pids`:
`matchCount = pids.length`,
`pageCount = max(1, ceil(matchCount / itemsPerPage))` (real division and
ceiling, as `Math.ceil` computes), and — only when `page` is truthy —
the slice starting at `max(0, page−1) · itemsPerPage`. -/
def paginateResult (pids : List Int) (page requestedIpp : Int) : PagedResult :=
  let itemsPerPage := effectiveItemsPerPage requestedIpp
  { matchCount := pids.length
    pageCount := max 1 ⌈((pids.length : ℚ)) / ((itemsPerPage : ℚ))⌉
    pagedPids :=
      if page == 0 then pids
      else
        let start := max 0 (page - 1) * itemsPerPage
        jsSlice pids start (start + itemsPerPage) }

/-! ## Concrete instances used by witnesses and counterexamples -/

/-- A world with no stored records and no registered extensions. -/
def trivialWorld : World :=
  { posts := fun _ => none
    topics := fun _ => none
    username := fun _ => ""
    categoryField := fun _ => .undefined
    now := 0
    hasFilterSortListeners := false
    filterSortHook := fun _ posts _ => posts }

/-- A relevance-sorted, filterless query against the `posts` domain. -/
def relevanceData : SearchData :=
  { query := "hello", searchIn := "posts", matchWords := "", sortBy := "relevance",
    sortDirection := "", replies := none, repliesFilter := "", timeRange := none,
    timeFilter := "", hasTags := none, page := 0, itemsPerPage := 0, uid := 1 }

/-- A post record that is soft-deleted. -/
def deletedPost : Post :=
  { pid := 2, uid := 1, tid := 20, timestamp := 5, deleted := true, upvotes := 0, downvotes := 0 }

/-- A world whose only record is the soft-deleted post `2`. -/
def onlyDeletedWorld : World :=
  { posts := fun q => if q = 2 then some deletedPost else none
    topics := fun _ => none
    username := fun _ => ""
    categoryField := fun _ => .undefined
    now := 0
    hasFilterSortListeners := false
    filterSortHook := fun _ posts _ => posts }

/-- A timestamp-sorted, filterless query (so the filter/sort stage runs). -/
def timestampData : SearchData :=
  { query := "", searchIn := "posts", matchWords := "", sortBy := "timestamp",
    sortDirection := "", replies := none, repliesFilter := "", timeRange := none,
    timeFilter := "", hasTags := none, page := 0, itemsPerPage := 0, uid := 1 }

/-- A live post in a live topic, for the C3 witness world. -/
def livePost : Post :=
  { pid := 1, uid := 1, tid := 10, timestamp := 7, deleted := false, upvotes := 0, downvotes := 0 }

/-- The live topic holding `livePost`. -/
def liveTopic : Topic :=
  { tid := 10, cid := 1, deleted := false, postcount := 3, tags := [] }

/-- A world with one live post (`1`) and one soft-deleted post (`2`). -/
def mixedWorld : World :=
  { posts := fun q => if q = 1 then some livePost else if q = 2 then some deletedPost else none
    topics := fun t => if t = 10 then some liveTopic else none
    username := fun _ => ""
    categoryField := fun _ => .undefined
    now := 0
    hasFilterSortListeners := false
    filterSortHook := fun _ posts _ => posts }

/-- A final id list with 25 matches, for the C6 witness. -/
def list25 : List Int := (List.range 25).map Int.ofNat

/-- An 11-element final id list, for the C10 counterexample. -/
def list11 : List Int := (List.range 11).map Int.ofNat

/-- The query of the claim's worked example. -/
def inTopicData : SearchData :=
  { query := "in:topic-42 hello", searchIn := "titlesposts", matchWords := "",
    sortBy := "relevance", sortDirection := "", replies := none, repliesFilter := "",
    timeRange := none, timeFilter := "", hasTags := none, page := 0,
    itemsPerPage := 0, uid := 1 }

/-- The stored content for the C8 witness (`"I have a cat"` everywhere). -/
def catContent : Int → String := fun _ => "I have a cat"

/-- The stored parent-topic titles for the C8 witness (empty). -/
def emptyTitle : Int → String := fun _ => ""

/-- A hydrated item with timestamp 5, for the C9 witness. -/
def earlyItem : HPost :=
  { post := { pid := 1, uid := 0, tid := 0, timestamp := 5, deleted := false,
              upvotes := 0, downvotes := 0 },
    topic := none, username := none, categoryField := none }

/-- A hydrated item with timestamp 9, for the C9 witness. -/
def lateItem : HPost :=
  { post := { pid := 2, uid := 0, tid := 0, timestamp := 9, deleted := false,
              upvotes := 0, downvotes := 0 },
    topic := none, username := none, categoryField := none }

/-- A timestamp-descending query for the C9 witness. -/
def descData : SearchData :=
  { query := "", searchIn := "posts", matchWords := "", sortBy := "timestamp",
    sortDirection := "desc", replies := none, repliesFilter := "", timeRange := none,
    timeFilter := "", hasTags := none, page := 0, itemsPerPage := 0, uid := 1 }

/-! ## Helper lemmas -/

/-- A list is a prefix of itself followed by anything. -/
theorem isPrefixOf_self_append (l₁ l₂ : List Char) : l₁.isPrefixOf (l₁ ++ l₂) = true := by
  induction l₁ with
  | nil => simp [List.isPrefixOf]
  | cons c cs ih => simp [List.isPrefixOf, ih]

/-- Each branch of `filterByPostcount` is `List.filter` or the identity. -/
theorem filterByPostcount_sublist (posts : List HPost) (pc : Option Int) (rf : String) :
    (filterByPostcount posts pc rf).Sublist posts := by
  cases pc with
  | none => exact List.Sublist.refl _
  | some n =>
    simp only [filterByPostcount]
    split
    · exact List.filter_sublist _
    · exact List.filter_sublist _

/-- Each branch of `filterByTimerange` is `List.filter` or the identity. -/
theorem filterByTimerange_sublist (posts : List HPost) (tr : Option Int) (tf : String)
    (now : Int) : (filterByTimerange posts tr tf now).Sublist posts := by
  cases tr with
  | none => exact List.Sublist.refl _
  | some n =>
    simp only [filterByTimerange]
    split
    · exact List.filter_sublist _
    · exact List.filter_sublist _

/-- Each branch of `filterByTags` is `List.filter` or the identity. -/
theorem filterByTags_sublist (posts : List HPost) (tags : Option (List String)) :
    (filterByTags posts tags).Sublist posts := by
  cases tags with
  | none => exact List.Sublist.refl _
  | some t =>
    simp only [filterByTags]
    split
    · exact List.Sublist.refl _
    · exact List.filter_sublist _

/-- Every branch of `sortPosts` returns either the input list or a
`mergeSort` of it, hence always a permutation of the input. -/
theorem sortPosts_perm (l : List HPost) (data : SearchData) : (sortPosts l data).Perm l := by
  unfold sortPosts
  split
  · exact List.Perm.refl _
  · split
    · exact List.mergeSort_perm _ _
    · split
      · exact List.Perm.refl _
      · split
        · exact List.mergeSort_perm _ _
        · exact List.mergeSort_perm _ _
    · exact List.Perm.refl _

/-- What membership in the hydrated list of `getMatchedPosts` implies: the
post came from a candidate id, survived the soft-delete filter, and has a
live topic. -/
theorem getMatchedPosts_mem {w : World} {pids : List Int} {sortBy : String} {hp : HPost}
    (h : hp ∈ getMatchedPosts w pids sortBy) :
    (∃ q ∈ pids, w.posts q = some hp.post) ∧ hp.post.deleted = false ∧
    ∃ t, w.topics hp.post.tid = some t ∧ t.deleted = false ∧ hp.topic = some t := by
  unfold getMatchedPosts at h
  rw [List.mem_filter] at h
  obtain ⟨h1, halive⟩ := h
  rw [List.mem_map] at h1
  obtain ⟨p, hpmem, rfl⟩ := h1
  rw [List.mem_filter] at hpmem
  obtain ⟨hpm, hdel⟩ := hpmem
  rw [List.mem_filterMap] at hpm
  obtain ⟨q, hq, hqp⟩ := hpm
  refine ⟨⟨q, hq, hqp⟩, by simpa using hdel, ?_⟩
  unfold topicAlive enrichPost at halive
  simp only [enrichPost]
  cases htw : w.topics p.tid with
  | none => rw [htw] at halive; cases halive
  | some t =>
    rw [htw] at halive
    simp only at halive
    exact ⟨t, rfl, by simpa using halive, rfl⟩

/-! ## C1 -/

/-- C1: with `sortBy = "relevance"`, no replies criterion, no time-range
criterion, no tags criterion, a domain other than `bookmarks` and no
registered `filter:search.filterAndSort` extension, `filterAndSort`
returns the candidate list unchanged and performs zero hydration fetches
(no post, topic, user or category lookup). -/
theorem c1_fast_path_identity (w : World) (pids : List Int) (data : SearchData)
    (h1 : data.sortBy = "relevance") (h2 : data.replies = none)
    (h3 : data.timeRange = none) (h4 : data.hasTags = none)
    (h5 : ¬ data.searchIn = "bookmarks") (h6 : w.hasFilterSortListeners = false) :
    filterAndSort w pids data = (pids, 0) := by
  have hfp : fastPath w data = true := by
    simp [fastPath, h1, h2, h3, h4, h5, h6]
  simp [filterAndSort, hfp]

/-- Witness for C1 at a concrete world, candidate list and query. -/
theorem c1_fast_path_identity_witness :
    filterAndSort trivialWorld [3, 7, 9] relevanceData = ([3, 7, 9], 0) :=
  c1_fast_path_identity trivialWorld [3, 7, 9] relevanceData rfl rfl rfl rfl
    (by decide) rfl

/-! ## C2 -/

/-- C2 counterexample: the domain `"frobnicate"` matches no built-in
domain, yet `search.search` does not throw — it fires the
`filter:search.searchIn` hook (which with no listeners returns its payload
unchanged), so the claimed hard error does not occur. -/
theorem c2_unknown_domain_counterexample :
    searchDispatch "frobnicate" = SearchOutcome.extensionHook ∧
    ¬ searchDispatch "frobnicate" = SearchOutcome.unknownError ∧
    builtinContentDomains.contains "frobnicate" = false ∧
    ¬ "frobnicate" = "users" ∧ ¬ "frobnicate" = "categories" ∧
    ¬ "frobnicate" = "tags" := by decide

/-- C2 amended: the hard `[[error:unknown-search-filter]]` error is raised
exactly when the requested domain is falsy (the empty string); every
non-empty domain that matches no built-in is routed to the extension hook
and the call returns the hook result without error. -/
theorem c2_unknown_domain_dispatch (s : String) :
    (searchDispatch s = SearchOutcome.unknownError ↔ s = "") ∧
    (builtinContentDomains.contains s = false → ¬ s = "users" →
      ¬ s = "categories" → ¬ s = "tags" → ¬ s = "" →
      searchDispatch s = SearchOutcome.extensionHook) := by
  constructor
  · constructor
    · intro h
      unfold searchDispatch at h
      split_ifs at h with hb hu hc ht hne
      all_goals first
        | exact absurd h (by decide)
        | simpa using hne
    · intro h
      subst h
      decide
  · intro hb hu hc ht hne
    unfold searchDispatch
    rw [hb]
    simp [hu, hc, ht, hne]

/-- Witness for C2 (amended) at a concrete extension domain. -/
theorem c2_unknown_domain_dispatch_witness :
    searchDispatch "myplugin" = SearchOutcome.extensionHook :=
  (c2_unknown_domain_dispatch "myplugin").2 (by decide) (by decide) (by decide)
    (by decide) (by decide)

/-! ## C3 -/

/-- C3 counterexample: the filter/sort stage runs (not the fast path), the
sole candidate `2` is soft-deleted — yet `filterAndSort` returns `[2]`:
when *every* candidate is dropped by hydration, line 169–171
(`if (!postsData.length) return pids`) hands back the original list,
deleted candidates included, contradicting the claim as stated. -/
theorem c3_deleted_candidate_counterexample :
    fastPath onlyDeletedWorld timestampData = false ∧
    onlyDeletedWorld.posts 2 = some deletedPost ∧
    deletedPost.deleted = true ∧
    (filterAndSort onlyDeletedWorld [2] timestampData).1 = [2] := by decide

/-- C3 amended: for a run of the filter/sort stage (not the fast path),
with no registered filter/sort extension and *provided at least one
candidate survives hydration*, every candidate whose post record is
soft-deleted, or whose topic is missing or soft-deleted, is excluded from
the result id list.  (When hydration drops every candidate, the stage
returns the input unchanged — see the counterexample.)  The coherence
hypothesis `hcoh` states the store's keying invariant: the record stored
under a post id carries that id. -/
theorem c3_deleted_excluded (w : World) (pids : List Int) (data : SearchData)
    (pid : Int) (p : Post)
    (hL : w.hasFilterSortListeners = false)
    (hcoh : ∀ q ∈ pids, ∀ post, w.posts q = some post → post.pid = q)
    (hrun : fastPath w data = false)
    (hne : getMatchedPosts w pids data.sortBy ≠ [])
    (hp : w.posts pid = some p)
    (hbad : p.deleted = true ∨ w.topics p.tid = none ∨
            (∃ t, w.topics p.tid = some t ∧ t.deleted = true)) :
    pid ∉ (filterAndSort w pids data).1 := by
  intro hmem
  have hne' : (getMatchedPosts w pids data.sortBy).isEmpty = false := by
    simpa [List.isEmpty_iff] using hne
  simp only [filterAndSort, hrun, Bool.false_eq_true, if_false, hne', hL] at hmem
  rw [List.mem_map] at hmem
  obtain ⟨hp', hm, hpid⟩ := hmem
  have h3 : hp' ∈ filterByTags
      (filterByTimerange
        (filterByPostcount (getMatchedPosts w pids data.sortBy) data.replies data.repliesFilter)
        data.timeRange data.timeFilter w.now)
      data.hasTags := (sortPosts_perm _ _).mem_iff.mp hm
  have h0 : hp' ∈ getMatchedPosts w pids data.sortBy :=
    (filterByPostcount_sublist _ _ _).subset
      ((filterByTimerange_sublist _ _ _ _).subset ((filterByTags_sublist _ _).subset h3))
  obtain ⟨⟨q, hq, hqp⟩, hdel, t, htid, htdel, _⟩ := getMatchedPosts_mem h0
  have hqpid : q = pid := by rw [← hcoh q hq hp'.post hqp, hpid]
  subst hqpid
  rw [hp] at hqp
  obtain rfl : p = hp'.post := by injection hqp
  rcases hbad with hb | hb | ⟨t', ht', htd'⟩
  · rw [hdel] at hb; cases hb
  · rw [htid] at hb; cases hb
  · rw [htid] at ht'
    injection ht' with ht''
    rw [← ht'', htdel] at htd'
    cases htd'

/-- Witness for C3 (amended): in `mixedWorld` the deleted candidate `2` is
excluded while the live candidate keeps the hydrated list non-empty. -/
theorem c3_deleted_excluded_witness :
    2 ∉ (filterAndSort mixedWorld [1, 2] timestampData).1 :=
  c3_deleted_excluded mixedWorld [1, 2] timestampData 2 deletedPost rfl
    (by
      intro q hq post hpost
      fin_cases hq <;> simp [mixedWorld] at hpost <;> simp [← hpost, livePost, deletedPost])
    (by decide) (by decide) (by decide) (Or.inl rfl)

/-! ## C4 -/

/-- C4: the merged candidate list is the main-item ids (in container
order) before the direct post ids with falsy entries dropped, and each of
the reply-count, time-range and tag filters — and hence their composition,
the whole filter stage — returns an order-preserving subsequence
(`List.Sublist`) of its input. -/
theorem c4_merge_and_filters_preserve_order (mainPids pids : List Int) (posts : List HPost)
    (replies : Option Int) (repliesFilter : String) (timeRange : Option Int)
    (timeFilter : String) (now : Int) (hasTags : Option (List String)) :
    mergeCandidates mainPids pids =
      mainPids.filter (fun pid => !(pid == 0)) ++ pids.filter (fun pid => !(pid == 0)) ∧
    (filterByPostcount posts replies repliesFilter).Sublist posts ∧
    (filterByTimerange posts timeRange timeFilter now).Sublist posts ∧
    (filterByTags posts hasTags).Sublist posts ∧
    (filterByTags
      (filterByTimerange (filterByPostcount posts replies repliesFilter) timeRange timeFilter now)
      hasTags).Sublist posts := by
  refine ⟨by simp [mergeCandidates, List.filter_append],
    filterByPostcount_sublist _ _ _,
    filterByTimerange_sublist _ _ _ _,
    filterByTags_sublist _ _, ?_⟩
  exact ((filterByTags_sublist _ _).trans
    (filterByTimerange_sublist _ _ _ _)).trans (filterByPostcount_sublist _ _ _)

/-! ## C5 -/

/-- C5 counterexample: a requested `itemsPerPage` of `-5` is not clamped
up to `1` — line 104 only caps above (`Math.min(x || 10, 100)`), so the
effective page size `-5` lies below the claimed interval `[1, 100]`. -/
theorem c5_items_per_page_counterexample :
    effectiveItemsPerPage (-5) = -5 ∧ (-5 : Int) < 1 := by decide

/-- C5 amended: the effective page size is `min(requested || 10, 100)`:
an absent (falsy `0`) request becomes `10`, a request of `500` becomes
`100`, the result never exceeds `100`, and for any requested value `≥ 1`
the result also stays `≥ 1` — but there is no lower clamp, so requests
below `1` pass through unchanged. -/
theorem c5_items_per_page_clamp (r : Int) (h : 1 ≤ r) :
    effectiveItemsPerPage r = min r 100 ∧
    1 ≤ effectiveItemsPerPage r ∧
    effectiveItemsPerPage r ≤ 100 ∧
    effectiveItemsPerPage 0 = 10 ∧
    effectiveItemsPerPage 500 = 100 := by
  have h0 : (r == 0) = false := by simp; omega
  refine ⟨by simp [effectiveItemsPerPage, h0], ?_, ?_, by decide, by decide⟩
  · simp only [effectiveItemsPerPage, h0, Bool.false_eq_true, if_false]
    omega
  · simp only [effectiveItemsPerPage, h0, Bool.false_eq_true, if_false]
    omega

/-- Witness for C5 (amended) at a concrete in-range request. -/
theorem c5_items_per_page_clamp_witness :
    effectiveItemsPerPage 7 = min 7 100 ∧
    1 ≤ effectiveItemsPerPage 7 ∧
    effectiveItemsPerPage 7 ≤ 100 ∧
    effectiveItemsPerPage 0 = 10 ∧
    effectiveItemsPerPage 500 = 100 :=
  c5_items_per_page_clamp 7 (by decide)

/-! ## C6 -/

/-- The rational ceiling of `n / b` (what `Math.ceil` computes on these
integer inputs) equals the integer formula `(n + b − 1) / b` for `b ≥ 1`. -/
theorem ceil_div_eq_ediv (n : ℕ) (b : ℤ) (hb : 1 ≤ b) :
    (⌈(n : ℚ) / (b : ℚ)⌉ : ℤ) = ((n : ℤ) + b - 1) / b := by
  have hb0 : (0 : ℤ) < b := hb
  have hbq : (0 : ℚ) < (b : ℚ) := by exact_mod_cast hb0
  have hdm := Int.ediv_add_emod ((n : ℤ) + b - 1) b
  have hm0 : 0 ≤ ((n : ℤ) + b - 1) % b := Int.emod_nonneg _ (by omega)
  have hmlt : ((n : ℤ) + b - 1) % b < b := Int.emod_lt_of_pos _ hb0
  have h1 : (n : ℤ) ≤ b * (((n : ℤ) + b - 1) / b) := by linarith
  have h2 : (((n : ℤ) + b - 1) / b - 1) * b < (n : ℤ) := by
    have hx : (((n : ℤ) + b - 1) / b - 1) * b = b * (((n : ℤ) + b - 1) / b) - b := by ring
    rw [hx]; linarith
  rw [Int.ceil_eq_iff]
  constructor
  · rw [lt_div_iff₀ hbq]
    exact_mod_cast h2
  · rw [div_le_iff₀ hbq]
    calc ((n : ℚ)) ≤ ((b * (((n : ℤ) + b - 1) / b) : ℤ) : ℚ) := by exact_mod_cast h1
    _ = ((((n : ℤ) + b - 1) / b : ℤ) : ℚ) * (b : ℚ) := by push_cast; ring

/-- C6: for an effective page size in `[1, 100]` and a 1-based page
number, `matchCount` is the final list's length, `pageCount` is
`max(1, ⌈matchCount / itemsPerPage⌉)` (equal to the integer formula
`(len + ipp − 1) / ipp`), and the hydrated ids are exactly the slice
starting at offset `(page − 1) · itemsPerPage` of length `itemsPerPage`. -/
theorem c6_pagination (l : List Int) (page ipp : Int)
    (hpage : 1 ≤ page) (hi1 : 1 ≤ ipp) (hi2 : ipp ≤ 100) :
    (paginateResult l page ipp).matchCount = l.length ∧
    (paginateResult l page ipp).pageCount = max 1 (((l.length : ℤ) + ipp - 1) / ipp) ∧
    (paginateResult l page ipp).pagedPids =
      (l.drop ((page - 1) * ipp).toNat).take ipp.toNat := by
  have hipp : effectiveItemsPerPage ipp = ipp := by
    have h0 : (ipp == 0) = false := by simp; omega
    simp only [effectiveItemsPerPage, h0, Bool.false_eq_true, if_false]
    omega
  have hpagene : (page == 0) = false := by simp; omega
  have hmax : max 0 (page - 1) = page - 1 := by omega
  refine ⟨rfl, ?_, ?_⟩
  · simp only [paginateResult]
    rw [hipp, ceil_div_eq_ediv l.length ipp hi1]
  · have hstart : 0 ≤ (page - 1) * ipp := mul_nonneg (by omega) (by omega)
    simp only [paginateResult, hpagene, Bool.false_eq_true, if_false, hipp, hmax, jsSlice]
    generalize hgen : (page - 1) * ipp = s at hstart ⊢
    rw [if_neg (not_lt.mpr hstart), if_neg (not_lt.mpr (by linarith))]
    rw [List.drop_take]
    by_cases hcase : s ≤ (l.length : Int)
    · have hk : (min s (l.length : Int)).toNat = s.toNat := by omega
      rw [hk, List.take_eq_take, List.length_drop]
      omega
    · have hk : (min s (l.length : Int)).toNat = l.length := by omega
      have h2 : l.drop s.toNat = [] := List.drop_eq_nil_of_le (by omega)
      rw [hk, h2, List.drop_length]
      simp

/-- Witness for C6 at the worked example of the claim: `page = 2`,
`itemsPerPage = 10`, 25 matches give `pageCount = 3` and the hydrated
slice at offsets `[10, 20)`. -/
theorem c6_pagination_witness :
    (paginateResult list25 2 10).matchCount = 25 ∧
    (paginateResult list25 2 10).pageCount = 3 ∧
    (paginateResult list25 2 10).pagedPids = [10, 11, 12, 13, 14, 15, 16, 17, 18, 19] := by
  obtain ⟨h1, h2, h3⟩ := c6_pagination list25 2 10 (by decide) (by decide) (by decide)
  refine ⟨?_, ?_, ?_⟩
  · rw [h1]; decide
  · rw [h2]; decide
  · rw [h3]; decide

/-! ## C10 -/

/-- C10 counterexample: `page = 0` is falsy, so line 112's `if (data.page)`
skips slicing entirely and the whole 11-element list is hydrated — not the
same result page as `page = 1`, whose slice keeps only the first 10.  The
claim fails at the page value `0` it explicitly includes. -/
theorem c10_page_zero_counterexample :
    ¬ (paginateResult list11 0 10).pagedPids = (paginateResult list11 1 10).pagedPids ∧
    (paginateResult list11 0 10).pagedPids = list11 ∧
    (paginateResult list11 1 10).pagedPids = [0, 1, 2, 3, 4, 5, 6, 7, 8, 9] := by decide

/-- C10 amended: for every *truthy* page value at most 1 — negative pages
and page 1 itself — `Math.max(0, page − 1)` pins the slice offset to 0, so
the result page equals page 1; page 0, however, is falsy and skips slicing
altogether, returning the full unsliced list. -/
theorem c10_low_pages_clamp_to_first (l : List Int) (ipp page : Int)
    (h1 : page ≤ 1) (h2 : ¬ page = 0) :
    (paginateResult l page ipp).pagedPids = (paginateResult l 1 ipp).pagedPids ∧
    (paginateResult l 0 ipp).pagedPids = l := by
  have hz : (page == 0) = false := by simp [h2]
  have hmax : max 0 (page - 1) = 0 := by omega
  constructor
  · simp only [paginateResult, hz, Bool.false_eq_true, if_false, hmax]
    norm_num
  · simp only [paginateResult]
    rfl

/-- Witness for C10 (amended) at the concrete page `-3`. -/
theorem c10_low_pages_witness :
    (paginateResult list11 (-3) 10).pagedPids = (paginateResult list11 1 10).pagedPids ∧
    (paginateResult list11 0 10).pagedPids = list11 :=
  c10_low_pages_clamp_to_first list11 10 (-3) (by decide) (by decide)

/-! ## C7 -/

/-- `takeDigits` consumes exactly a leading all-digit block when it is
terminated by a space. -/
theorem takeDigits_digits_space (ds rest : List Char)
    (hds : ∀ c ∈ ds, c.isDigit = true) :
    takeDigits (ds ++ ' ' :: rest) = (ds, ' ' :: rest) := by
  induction ds with
  | nil => simp [takeDigits]
  | cons c cs ih =>
    have hc : c.isDigit = true := hds c (by simp)
    have ih' := ih (fun d hd => hds d (List.mem_cons_of_mem _ hd))
    simp [takeDigits, hc, ih']

/-- The anchored `in:topic-<digits><space>` pattern matches a query of
exactly that shape, capturing the digits and the remainder. -/
theorem inTopicMatch_token (ds rest : List Char) (hne : ds ≠ [])
    (hds : ∀ c ∈ ds, c.isDigit = true) :
    inTopicMatch ("in:topic-".data ++ ds ++ ' ' :: rest) = some (ds, rest) := by
  unfold inTopicMatch
  rw [List.append_assoc]
  rw [if_pos (isPrefixOf_self_append _ _)]
  rw [List.drop_left]
  rw [takeDigits_digits_space ds rest hds]
  cases ds with
  | nil => exact absurd rfl hne
  | cons c cs => rfl

/-- C7: a query whose text is exactly `in:topic-` followed by a non-empty
digit string, a space, and the remaining term never reaches general
dispatch: `searchInContent` takes the per-container branch (so `doSearch`
is never invoked against either the post index or the topic index), with
the scoping token stripped from the text. -/
theorem c7_in_topic_scoping (data : SearchData) (ds rest : List Char)
    (hne : ds ≠ []) (hds : ∀ c ∈ ds, c.isDigit = true)
    (hq : data.query.data = "in:topic-".data ++ ds ++ ' ' :: rest) :
    contentDispatch data = .perContainer (String.mk ds) (String.mk rest) := by
  unfold contentDispatch
  rw [hq, inTopicMatch_token ds rest hne hds]

/-- Witness for C7: `"in:topic-42 hello"` searches container `42` with
text `"hello"`, not the general backends. -/
theorem c7_in_topic_scoping_witness :
    contentDispatch inTopicData = .perContainer "42" "hello" :=
  c7_in_topic_scoping inTopicData ['4', '2'] "hello".data (by decide) (by decide)
    (by decide)

/-! ## C8 -/

/-- C8: in the bookmarks text filter, an id survives iff — splitting the
query on spaces — at least one token (`matchWords = "any"`) or every token
(any other mode, i.e. the `"all"` default) is a substring of the post
content or of the parent topic title; and the filter touches only ids that
were in the batch. -/
theorem c8_bookmark_token_match (content title : Int → String) (pids : List Int)
    (query matchWords : String) (pid : Int) (hq : ¬ query = "") :
    pid ∈ bookmarkFilterBatch content title pids query matchWords ↔
      pid ∈ pids ∧
      (if matchWords = "any" then
        ∃ tok ∈ jsSplit query ' ',
          (jsIncludes (content pid) tok || jsIncludes (title pid) tok) = true
      else
        ∀ tok ∈ jsSplit query ' ',
          (jsIncludes (content pid) tok || jsIncludes (title pid) tok) = true) := by
  have hq' : (query == "") = false := by simp [hq]
  unfold bookmarkFilterBatch
  rw [hq']
  simp only [Bool.false_eq_true, if_false, List.mem_filter]
  unfold bookmarkKeep
  by_cases hmw : matchWords = "any"
  · simp [hmw, List.any_eq_true]
  · have hmw' : (matchWords == "any") = false := by simp [hmw]
    simp [hmw', hmw, List.all_eq_true]

/-- Witness for C8 at the claim's example: tokens `["cat", "dog"]` against
content `"I have a cat"` keep the id under `any` and drop it under
`all`. -/
theorem c8_bookmark_token_match_witness :
    1 ∈ bookmarkFilterBatch catContent emptyTitle [1] "cat dog" "any" ∧
    ¬ 1 ∈ bookmarkFilterBatch catContent emptyTitle [1] "cat dog" "all" := by
  constructor
  · exact (c8_bookmark_token_match catContent emptyTitle [1] "cat dog" "any" 1
      (by decide)).mpr (by decide)
  · intro h
    have h2 := (c8_bookmark_token_match catContent emptyTitle [1] "cat dog" "all" 1
      (by decide)).mp h
    revert h2
    decide

/-! ## C9 -/

/-- With `sortBy = "timestamp"` the sort reduces to a `mergeSort` by the
depth-1 numeric comparator on the `timestamp` field. -/
theorem sortPosts_timestamp (data : SearchData) (l : List HPost)
    (hs : data.sortBy = "timestamp") :
    sortPosts l data = l.mergeSort (fun p1 p2 =>
      decide (directionOf data * (p2.post.timestamp - p1.post.timestamp) ≤ 0)) := by
  cases l with
  | nil => simp [sortPosts]
  | cons a as =>
    have hsplit : jsSplit "timestamp" '.' = ["timestamp"] := by decide
    unfold sortPosts
    rw [hs, if_neg (by simp), hsplit]
    rfl

/-- C9: sorting hydrated items with `sortBy = "timestamp"` yields a
permutation of the input that is non-increasing in timestamp under
`sortDirection = "desc"` (and under the absent-value default), and
non-decreasing under `"asc"`. -/
theorem c9_timestamp_sort (data : SearchData) (l : List HPost)
    (hs : data.sortBy = "timestamp") :
    (sortPosts l data).Perm l ∧
    (data.sortDirection = "desc" ∨ data.sortDirection = "" →
      (sortPosts l data).Pairwise (fun a b => b.post.timestamp ≤ a.post.timestamp)) ∧
    (data.sortDirection = "asc" →
      (sortPosts l data).Pairwise (fun a b => a.post.timestamp ≤ b.post.timestamp)) := by
  refine ⟨sortPosts_perm l data, ?_, ?_⟩
  · intro hdir
    have hd : directionOf data = 1 := by
      rcases hdir with h | h <;> simp [directionOf, h]
    rw [sortPosts_timestamp data l hs]
    simp only [hd]
    refine List.Pairwise.imp ?_ (List.sorted_mergeSort ?_ ?_ l)
    · intro a b hab
      simp only [decide_eq_true_eq] at hab
      omega
    · intro a b c h1 h2
      simp only [decide_eq_true_eq] at h1 h2 ⊢
      omega
    · intro a b
      simp only [Bool.or_eq_true, decide_eq_true_eq]
      omega
  · intro hdir
    have hd : directionOf data = -1 := by simp [directionOf, hdir]
    rw [sortPosts_timestamp data l hs]
    simp only [hd]
    refine List.Pairwise.imp ?_ (List.sorted_mergeSort ?_ ?_ l)
    · intro a b hab
      simp only [decide_eq_true_eq] at hab
      omega
    · intro a b c h1 h2
      simp only [decide_eq_true_eq] at h1 h2 ⊢
      omega
    · intro a b
      simp only [Bool.or_eq_true, decide_eq_true_eq]
      omega

/-- Witness for C9 at a concrete two-item list and the descending
direction. -/
theorem c9_timestamp_sort_witness :
    (sortPosts [earlyItem, lateItem] descData).Perm [earlyItem, lateItem] ∧
    (sortPosts [earlyItem, lateItem] descData).Pairwise
      (fun a b => b.post.timestamp ≤ a.post.timestamp) := by
  obtain ⟨hperm, hdesc, _⟩ := c9_timestamp_sort descData [earlyItem, lateItem] rfl
  exact ⟨hperm, hdesc (Or.inl rfl)⟩

end NodeBB
